import Mathlib

/-!
Verification of the surveillance control plane of the hostel_eye repository.

The decision/state layer of the system is embedded shallowly:
* `src/tracking/person_tracker.py`  → `PersonTracker` section,
* `src/logging/activity_logger.py`  → `ActivityLogger` section,
* `src/recording/video_recorder.py` → `VideoRecorder` section,
* `src/notifications/telegram_bot.py` together with the callback wiring of
  `main.py`                          → `TelegramBot` section.

Conventions: clock readings (`time.time()` / `datetime.now()`) and pixel
coordinates are integers (every constant involved — thresholds, cooldowns,
reminder intervals — is an integer, so nothing in the claims depends on
fractional values); stateful methods become functions from a state record
(plus the clock reading and the external inputs of the call) to the new
state paired with the return value and, where side effects matter, an
ordered trace of emitted effects.
-/

namespace HostelEye

/-! ## Person tracker (`src/tracking/person_tracker.py`) -/

/-- A bounding box `(x1, y1, x2, y2)` in frame coordinates. -/
structure BBox where
  x1 : ℤ
  y1 : ℤ
  x2 : ℤ
  y2 : ℤ
deriving DecidableEq, Repr

/-- One element of `PersonTracker.tracked`: the dict
`{"bbox": …, "name": …, "face_loc": …, "last_check": …}` (the face location
plays no role in the tracker's decisions and is dropped). -/
structure TrackedEntry where
  bbox : BBox
  name : Option String
  lastCheck : ℤ
deriving DecidableEq, Repr

/-- The mutable state of `PersonTracker`, together with the two config
constants it reads (`config.tracking.bbox_move_threshold = 50`,
`config.tracking.recheck_interval = 5.0`). -/
structure TrackerState where
  tracked : List TrackedEntry
  lastPersonCount : ℕ
  moveThreshold : ℤ
  recheckInterval : ℤ
deriving DecidableEq, Repr

/-- Four times the squared center-to-center distance between two boxes:
the centers of `_bbox_distance` are `(x1+x2)/2`, so twice each center
difference is the integer `(b1.x1+b1.x2) - (b2.x1+b2.x2)`. -/
def bboxDistSq4 (b1 b2 : BBox) : ℤ :=
  ((b1.x1 + b1.x2) - (b2.x1 + b2.x2)) ^ 2 + ((b1.y1 + b1.y2) - (b2.y1 + b2.y2)) ^ 2

/-- The comparison `self._bbox_distance(curr_box, t["bbox"]) < self.move_threshold`
from the source, scaled to stay in `ℤ`: for a nonnegative threshold (the
configured `bbox_move_threshold` is 50),
`sqrt(dcx² + dcy²) < thr  ↔  (2·dcx)² + (2·dcy)² < (2·thr)²`. -/
def distBelow (b1 b2 : BBox) (thr : ℤ) : Bool :=
  decide (bboxDistSq4 b1 b2 < (2 * thr) ^ 2)

/-- The inner `for t in self.tracked` loop of `needs_face_check` for one
current box.  `none` means the loop finished with `matched == False`;
`some b` means a slot within `move_threshold` was found (then the loop
breaks) and `b` records whether the early `return True` for the periodic
refresh fired (`now - t["last_check"] > self.recheck_interval`). -/
def scanTracked (thr recheck now : ℤ) (box : BBox) : List TrackedEntry → Option Bool
  | [] => none
  | t :: ts =>
    if distBelow box t.bbox thr then
      some (decide (now - t.lastCheck > recheck))
    else
      scanTracked thr recheck now box ts

/-- The outer `for curr_box in current_boxes` loop of `needs_face_check`:
returns `true` on the first box that is unmatched or whose matched slot is
stale, `false` when the loop completes. -/
def scanBoxes (st : TrackerState) (now : ℤ) : List BBox → Bool
  | [] => false
  | box :: rest =>
    match scanTracked st.moveThreshold st.recheckInterval now box st.tracked with
    | none => true
    | some true => true
    | some false => scanBoxes st now rest

/-- `PersonTracker.needs_face_check` (a pure function of the state, the
clock reading `now = time.time()` and the current boxes; it mutates
nothing). -/
def needs_face_check (st : TrackerState) (now : ℤ) (currentBoxes : List BBox) : Bool :=
  if currentBoxes.length ≠ st.lastPersonCount then true
  else if currentBoxes.length = 0 then false
  else scanBoxes st now currentBoxes

/-- The first cached slot within `thr` of `box` (the spec's greedy
first-match rule). -/
def firstMatch (thr : ℤ) (box : BBox) (slots : List TrackedEntry) : Option TrackedEntry :=
  slots.find? (fun t => distBelow box t.bbox thr)

/-- Modelled from the spec's decision algorithm for `needsRecheck`
(section 4.1, steps 3–4 with the first-match tie-break), to be compared
with the implementation `needs_face_check`: a box votes true when it has no
match among the previous slots, or when its first match is older than the
recheck interval. -/
def boxBadSpec (st : TrackerState) (now : ℤ) (box : BBox) : Bool :=
  match firstMatch st.moveThreshold box st.tracked with
  | none => true
  | some t => decide (now - t.lastCheck > st.recheckInterval)

/-- Modelled from the spec's decision algorithm for `needsRecheck`
(section 4.1): population change → true; empty → false; some bad box →
true; otherwise false. -/
def needsRecheckSpec (st : TrackerState) (now : ℤ) (currentBoxes : List BBox) : Bool :=
  if currentBoxes.length ≠ st.lastPersonCount then true
  else if currentBoxes.isEmpty then false
  else currentBoxes.any (boxBadSpec st now)

theorem scanTracked_eq_find? (thr recheck now : ℤ) (box : BBox) (ts : List TrackedEntry) :
    scanTracked thr recheck now box ts =
      (ts.find? (fun t => distBelow box t.bbox thr)).map
        (fun t => decide (now - t.lastCheck > recheck)) := by
  induction ts with
  | nil => rfl
  | cons t ts ih =>
    by_cases h : distBelow box t.bbox thr
    · simp [scanTracked, List.find?, h]
    · simp only [distBelow] at h
      simp [scanTracked, List.find?, distBelow, h, ih]

theorem scanBoxes_eq_any (st : TrackerState) (now : ℤ) (boxes : List BBox) :
    scanBoxes st now boxes = boxes.any (boxBadSpec st now) := by
  induction boxes with
  | nil => rfl
  | cons box rest ih =>
    simp only [scanBoxes, scanTracked_eq_find?, List.any_cons, ih]
    cases h : st.tracked.find? (fun t => distBelow box t.bbox st.moveThreshold) with
    | none => simp [boxBadSpec, firstMatch, h]
    | some t =>
      by_cases hs : now - t.lastCheck > st.recheckInterval
      · simp [boxBadSpec, firstMatch, h, hs]
      · simp [boxBadSpec, firstMatch, h, hs]

/-- C1: `needs_face_check` computes exactly the specified function of the
current boxes, the cached slots and the clock (population change → true;
empty → false; otherwise greedy first-match per box, true iff some box is
unmatched or its first match is older than the recheck interval); in
particular, when the cardinality is unchanged, every current box has a
first match among the cached slots, and no slot's last check is older than
the recheck interval, it returns false. -/
theorem C1_needs_face_check_correct :
    (∀ (st : TrackerState) (now : ℤ) (boxes : List BBox),
      needs_face_check st now boxes = needsRecheckSpec st now boxes) ∧
    (∀ (st : TrackerState) (now : ℤ) (boxes : List BBox),
      boxes.length = st.lastPersonCount →
      (∀ box ∈ boxes, (firstMatch st.moveThreshold box st.tracked).isSome) →
      (∀ t ∈ st.tracked, now - t.lastCheck ≤ st.recheckInterval) →
      needs_face_check st now boxes = false) := by
  constructor
  · intro st now boxes
    unfold needs_face_check needsRecheckSpec
    rw [scanBoxes_eq_any]
    rcases boxes with _ | ⟨b, bs⟩ <;> simp
  · intro st now boxes hlen hmatch hfresh
    unfold needs_face_check
    rw [if_neg (by simp [hlen]), scanBoxes_eq_any]
    rcases boxes with _ | ⟨b, bs⟩
    · simp
    · rw [if_neg (by simp)]
      rw [List.any_eq_false]
      intro box hbox
      cases h : firstMatch st.moveThreshold box st.tracked with
      | none =>
        have := hmatch box hbox
        rw [h] at this
        simp at this
      | some t =>
        have ht : t ∈ st.tracked := List.mem_of_find?_eq_some h
        have := hfresh t ht
        simp [boxBadSpec, h]
        linarith

theorem C1_needs_face_check_correct_witness :
    needs_face_check
        ⟨[⟨⟨0, 0, 10, 10⟩, some "alice", 99⟩], 1, 50, 5⟩ 100 [⟨1, 1, 11, 11⟩] = false :=
  C1_needs_face_check_correct.2
    ⟨[⟨⟨0, 0, 10, 10⟩, some "alice", 99⟩], 1, 50, 5⟩ 100 [⟨1, 1, 11, 11⟩]
    (by decide) (by decide) (by decide)

/-! ## Activity logger (`src/logging/activity_logger.py`) -/

/-- `ActivityLogger` state: the `last_seen` dict (newest entry first), the
two cooldown constants (`known_cooldown = 300`, `unknown_cooldown = 30`)
and whether a notifier is wired (`SecuritySystem._setup_bot_callbacks`
sets `logger.notifier = bot`). -/
structure LoggerState where
  lastSeen : List (String × ℤ)
  knownCooldown : ℤ
  unknownCooldown : ℤ
  hasNotifier : Bool
deriving DecidableEq, Repr

/-- Dictionary read `self.last_seen.get(name)`. -/
def lookupSeen (m : List (String × ℤ)) (name : String) : Option ℤ :=
  (m.find? (fun p => p.1 == name)).map (fun p => p.2)

/-- Dictionary write `self.last_seen[name] = t`. -/
def insertSeen (m : List (String × ℤ)) (name : String) (t : ℤ) : List (String × ℤ) :=
  (name, t) :: m.filter (fun p => p.1 != name)

/-- The ordered side effects of one `log_detection` call.  `sendAlert`
carries the Boolean the notifier's `send_alert` returned (that method
catches its own exceptions, so a failed dispatch yields `false` and raises
nothing). -/
inductive LogEffect where
  | updateLastSeen (name : String) (t : ℤ)
  | saveSnapshot (path : String)
  | sendAlert (path : String) (delivered : Bool)
  | appendRecord (t : ℤ) (name : String) (imagePath : String)
deriving DecidableEq, Repr

/-- `ActivityLogger._get_cooldown`. -/
def cooldownFor (st : LoggerState) (name : String) : ℤ :=
  if name ≠ "Unknown" then st.knownCooldown else st.unknownCooldown

/-- `ActivityLogger._should_log` at clock reading `now`. -/
def shouldLog (st : LoggerState) (name : String) (now : ℤ) : Bool :=
  match lookupSeen st.lastSeen name with
  | none => true
  | some t => decide (now - t > cooldownFor st name)

/-- `ActivityLogger.log_detection`: returns the new state, the Boolean
return value, and the effect trace in program order.  `snapPath` is the
path `_save_intruder` would produce for this frame and `alertOk` the
notifier's delivery outcome. -/
def log_detection (st : LoggerState) (name : String) (now : ℤ)
    (snapPath : String) (alertOk : Bool) : LoggerState × Bool × List LogEffect :=
  if !shouldLog st name now then (st, false, [])
  else
    let st' : LoggerState := { st with lastSeen := insertSeen st.lastSeen name now }
    let imagePath := if name = "Unknown" then snapPath else ""
    let unknownEffs :=
      if name = "Unknown" then
        [LogEffect.saveSnapshot snapPath] ++
          (if st.hasNotifier then [LogEffect.sendAlert snapPath alertOk] else [])
      else []
    (st', true,
      LogEffect.updateLastSeen name now ::
        (unknownEffs ++ [LogEffect.appendRecord now name imagePath]))

/-- How many append-only records a trace holds. -/
def countRecords (effs : List LogEffect) : ℕ :=
  effs.countP (fun e => match e with
    | LogEffect.appendRecord _ _ _ => true
    | _ => false)

/-- How many alert dispatches a trace holds. -/
def countAlerts (effs : List LogEffect) : ℕ :=
  effs.countP (fun e => match e with
    | LogEffect.sendAlert _ _ => true
    | _ => false)

theorem lookupSeen_insertSeen_self (m : List (String × ℤ)) (name : String) (t : ℤ) :
    lookupSeen (insertSeen m name t) name = some t := by
  simp [lookupSeen, insertSeen, List.find?]

theorem cooldownFor_insert (st : LoggerState) (name name' : String) (t : ℤ) :
    cooldownFor { st with lastSeen := insertSeen st.lastSeen name t } name' =
      cooldownFor st name' := rfl

theorem shouldLog_after (st : LoggerState) (name : String) (t1 t2 : ℤ) :
    shouldLog { st with lastSeen := insertSeen st.lastSeen name t1 } name t2 =
      decide (t2 - t1 > cooldownFor st name) := by
  simp [shouldLog, lookupSeen_insertSeen_self, cooldownFor_insert]

theorem log_detection_logged (st : LoggerState) (name : String) (now : ℤ)
    (p : String) (ok : Bool) (h : shouldLog st name now = true) :
    log_detection st name now p ok =
      ({ st with lastSeen := insertSeen st.lastSeen name now }, true,
        LogEffect.updateLastSeen name now ::
          ((if name = "Unknown" then
              [LogEffect.saveSnapshot p] ++
                (if st.hasNotifier then [LogEffect.sendAlert p ok] else [])
            else []) ++
            [LogEffect.appendRecord now name (if name = "Unknown" then p else "")])) := by
  simp [log_detection, h]

theorem log_detection_suppressed (st : LoggerState) (name : String) (now : ℤ)
    (p : String) (ok : Bool) (h : shouldLog st name now = false) :
    log_detection st name now p ok = (st, false, []) := by
  simp [log_detection, h]

theorem log_detection_counts (st : LoggerState) (name : String) (now : ℤ)
    (p : String) (ok : Bool) (h : shouldLog st name now = true) :
    countRecords (log_detection st name now p ok).2.2 = 1 ∧
    countAlerts (log_detection st name now p ok).2.2 =
      (if name = "Unknown" ∧ st.hasNotifier = true then 1 else 0) := by
  rw [log_detection_logged st name now p ok h]
  by_cases hu : name = "Unknown" <;> by_cases hn : st.hasNotifier = true <;>
    simp [countRecords, countAlerts, hu, hn]

/-- C2: for every identity, two `log_detection` calls within
`cooldownFor(name)` seconds of each other produce exactly one appended
record and at most one alert dispatch (the second call returns false and
performs no side effects); two calls separated by more than
`cooldownFor(name)` seconds each produce a record and, for "Unknown" with
the notifier wired, each an alert; `cooldownFor` is the short unknown
cooldown exactly for the sentinel "Unknown"; a name never seen before is
always logged. -/
theorem C2_cooldown_gate :
    (∀ (st : LoggerState) (name : String) (t1 t2 : ℤ) (p1 p2 : String) (ok1 ok2 : Bool),
      shouldLog st name t1 = true →
      ((t2 - t1 ≤ cooldownFor st name →
          log_detection (log_detection st name t1 p1 ok1).1 name t2 p2 ok2 =
            ((log_detection st name t1 p1 ok1).1, false, []) ∧
          countRecords (log_detection st name t1 p1 ok1).2.2 = 1 ∧
          countAlerts (log_detection st name t1 p1 ok1).2.2 ≤ 1) ∧
        (t2 - t1 > cooldownFor st name →
          (log_detection (log_detection st name t1 p1 ok1).1 name t2 p2 ok2).2.1 = true ∧
          countRecords ((log_detection st name t1 p1 ok1).2.2 ++
              (log_detection (log_detection st name t1 p1 ok1).1 name t2 p2 ok2).2.2) = 2 ∧
          (name = "Unknown" → st.hasNotifier = true →
            countAlerts ((log_detection st name t1 p1 ok1).2.2 ++
                (log_detection (log_detection st name t1 p1 ok1).1 name t2 p2 ok2).2.2) = 2)))) ∧
    (∀ (st : LoggerState) (name : String) (t : ℤ),
      lookupSeen st.lastSeen name = none → shouldLog st name t = true) ∧
    (∀ (st : LoggerState) (name : String),
      cooldownFor st "Unknown" = st.unknownCooldown ∧
      (name ≠ "Unknown" → cooldownFor st name = st.knownCooldown)) := by
  refine ⟨?_, ?_, ?_⟩
  · intro st name t1 t2 p1 p2 ok1 ok2 h1
    have hst1 : (log_detection st name t1 p1 ok1).1 =
        { st with lastSeen := insertSeen st.lastSeen name t1 } := by
      rw [log_detection_logged st name t1 p1 ok1 h1]
    constructor
    · intro hle
      have h2 : shouldLog (log_detection st name t1 p1 ok1).1 name t2 = false := by
        rw [hst1, shouldLog_after]
        simp only [decide_eq_false_iff_not, not_lt]
        exact hle
      refine ⟨log_detection_suppressed _ _ _ _ _ h2, (log_detection_counts st name t1 p1 ok1 h1).1, ?_⟩
      rw [(log_detection_counts st name t1 p1 ok1 h1).2]
      split <;> simp
    · intro hgt
      have h2 : shouldLog (log_detection st name t1 p1 ok1).1 name t2 = true := by
        rw [hst1, shouldLog_after]
        simp only [decide_eq_true_eq]
        exact hgt
      have hcnt2 := log_detection_counts (log_detection st name t1 p1 ok1).1 name t2 p2 ok2 h2
      have hcnt1 := log_detection_counts st name t1 p1 ok1 h1
      have hnot : (log_detection st name t1 p1 ok1).1.hasNotifier = st.hasNotifier := by
        rw [hst1]
      refine ⟨?_, ?_, ?_⟩
      · rw [log_detection_logged _ _ _ _ _ h2]
      · have a1 := hcnt1.1
        have a2 := hcnt2.1
        simp only [countRecords, List.countP_append] at a1 a2 ⊢
        omega
      · intro hu hn
        have a1 := hcnt1.2
        have a2 := hcnt2.2
        rw [hnot] at a2
        rw [if_pos ⟨hu, hn⟩] at a1 a2
        simp only [countAlerts, List.countP_append] at a1 a2 ⊢
        omega
  · intro st name t h
    simp [shouldLog, h]
  · intro st name
    refine ⟨by simp [cooldownFor], fun h => by simp [cooldownFor, h]⟩

theorem C2_cooldown_gate_witness :
    (log_detection (log_detection ⟨[], 300, 30, true⟩ "Unknown" 0 "snap1" true).1
        "Unknown" 10 "snap2" true =
      ((log_detection ⟨[], 300, 30, true⟩ "Unknown" 0 "snap1" true).1, false, []) ∧
    countRecords (log_detection ⟨[], 300, 30, true⟩ "Unknown" 0 "snap1" true).2.2 = 1 ∧
    countAlerts (log_detection ⟨[], 300, 30, true⟩ "Unknown" 0 "snap1" true).2.2 ≤ 1) :=
  (C2_cooldown_gate.1 ⟨[], 300, 30, true⟩ "Unknown" 0 10 "snap1" "snap2" true true
    (by decide)).1 (by decide)

/-- C9: on every logged event the last-seen update is the first effect,
ahead of any external call; the alert sink is invoked only for the
"Unknown" identity; the append-only record is the last effect, present
whatever the alert outcome (the state and return value do not depend on
it); and the identity is suppressed for its whole cooldown window
afterwards, so a failed dispatch can neither duplicate the alert within
the window nor lose the record. -/
theorem C9_logged_event_ordering :
    ∀ (st : LoggerState) (name : String) (now : ℤ) (p : String) (ok : Bool),
      shouldLog st name now = true →
      ((log_detection st name now p ok).2.2.head? =
          some (LogEffect.updateLastSeen name now)) ∧
      ((log_detection st name now p ok).2.2.getLast? =
          some (LogEffect.appendRecord now name (if name = "Unknown" then p else ""))) ∧
      countRecords (log_detection st name now p ok).2.2 = 1 ∧
      (name ≠ "Unknown" → countAlerts (log_detection st name now p ok).2.2 = 0) ∧
      ((log_detection st name now p false).1 = (log_detection st name now p true).1 ∧
        (log_detection st name now p false).2.1 = (log_detection st name now p true).2.1) ∧
      (∀ (t2 : ℤ) (p2 : String) (ok2 : Bool), t2 - now ≤ cooldownFor st name →
        log_detection (log_detection st name now p ok).1 name t2 p2 ok2 =
          ((log_detection st name now p ok).1, false, [])) := by
  intro st name now p ok h
  have hlog := log_detection_logged st name now p ok h
  refine ⟨by rw [hlog]; rfl, ?_, (log_detection_counts st name now p ok h).1, ?_, ?_, ?_⟩
  · rw [hlog]
    show (LogEffect.updateLastSeen name now :: (_ ++ _)).getLast? = _
    rw [← List.cons_append, List.getLast?_concat]
  · intro hu
    rw [(log_detection_counts st name now p ok h).2]
    simp [hu]
  · rw [log_detection_logged st name now p false h, log_detection_logged st name now p true h]
    exact ⟨rfl, rfl⟩
  · intro t2 p2 ok2 hle
    have hst1 : (log_detection st name now p ok).1 =
        { st with lastSeen := insertSeen st.lastSeen name now } := by rw [hlog]
    have h2 : shouldLog (log_detection st name now p ok).1 name t2 = false := by
      rw [hst1, shouldLog_after]
      simp only [decide_eq_false_iff_not, not_lt]
      exact hle
    exact log_detection_suppressed _ _ _ _ _ h2

theorem C9_logged_event_ordering_witness :
    ((log_detection ⟨[], 300, 30, true⟩ "Unknown" 5 "snap" false).2.2.head? =
        some (LogEffect.updateLastSeen "Unknown" 5)) ∧
    ((log_detection ⟨[], 300, 30, true⟩ "Unknown" 5 "snap" false).2.2.getLast? =
        some (LogEffect.appendRecord 5 "Unknown"
          (if "Unknown" = "Unknown" then "snap" else ""))) :=
  ⟨(C9_logged_event_ordering ⟨[], 300, 30, true⟩ "Unknown" 5 "snap" false (by decide)).1,
   (C9_logged_event_ordering ⟨[], 300, 30, true⟩ "Unknown" 5 "snap" false (by decide)).2.1⟩

/-! ## Video recorder (`src/recording/video_recorder.py`) -/

/-- Mutable recorder state (`VideoRecorder.__init__`): `writerOpen` stands
for `self.writer` being a live `cv2.VideoWriter` handle. -/
structure RecorderState where
  recording : Bool
  currentFile : Option String
  writerOpen : Bool
  frameCount : ℕ
  startTime : Option ℤ
  reminderAcknowledged : Bool
  lastReminderTime : Option ℤ
  reminderCount : ℕ
deriving DecidableEq, Repr

/-- The recorder as `VideoRecorder.__init__` leaves it. -/
def initRecorder : RecorderState :=
  { recording := false, currentFile := none, writerOpen := false, frameCount := 0,
    startTime := none, reminderAcknowledged := false, lastReminderTime := none,
    reminderCount := 0 }

/-- `VideoRecorder.start`: `timestamp` is the formatted `datetime.now()`
string of the call and `now` its `time.time()` reading.  When already
recording it returns the *current file* unchanged (the command-level
wrapper `onRecordStart` below is what returns nothing in that case). -/
def VideoRecorder.start (st : RecorderState) (timestamp : String) (now : ℤ) :
    RecorderState × Option String :=
  if st.recording then (st, st.currentFile)
  else
    let file := timestamp ++ ".mp4"
    ({ recording := true, currentFile := some file, writerOpen := true, frameCount := 0,
       startTime := some now, reminderAcknowledged := false, lastReminderTime := some now,
       reminderCount := 0 }, some file)

/-- `VideoRecorder.stop`. -/
def VideoRecorder.stop (st : RecorderState) : RecorderState × Option String :=
  if !st.recording then (st, none)
  else
    ({ st with recording := false, writerOpen := false, currentFile := none,
               frameCount := 0, startTime := none }, st.currentFile)

/-- `VideoRecorder.write_frame`. -/
def VideoRecorder.writeFrame (st : RecorderState) : RecorderState :=
  if st.recording ∧ st.writerOpen then { st with frameCount := st.frameCount + 1 } else st

/-- `VideoRecorder.get_duration` at clock reading `now`. -/
def getDuration (st : RecorderState) (now : ℤ) : ℤ :=
  if st.recording ∧ st.startTime.isSome then now - st.startTime.getD 0 else 0

/-- `VideoRecorder.acknowledge_reminder` at clock reading `now`. -/
def acknowledge_reminder (st : RecorderState) (now : ℤ) : RecorderState :=
  { st with reminderAcknowledged := true, lastReminderTime := some now, reminderCount := 0 }

/-- `first_interval = 10 * 60` of `_reminder_loop`, in seconds. -/
def firstInterval : ℤ := 10 * 60

/-- `followup_interval = 30 * 60` of `_reminder_loop`, in seconds. -/
def followupInterval : ℤ := 30 * 60

/-- `max_reminders = 3` of `_reminder_loop`. -/
def maxReminders : ℕ := 3

/-- The callback invocations of one `_reminder_loop` iteration:
`on_reminder(count, duration/60)` (the duration is carried in seconds
here) or `on_auto_stop()` followed by `self.stop()`. -/
inductive ReminderEvent where
  | reminder (count : ℕ) (durationSec : ℤ)
  | autoStop
deriving DecidableEq, Repr

/-- The state mutation of a firing `_reminder_loop` iteration:
`self.reminder_count += 1; self.last_reminder_time = time.time();
self.reminder_acknowledged = False`. -/
def firedState (st : RecorderState) (now : ℤ) : RecorderState :=
  { st with reminderCount := st.reminderCount + 1, lastReminderTime := some now,
            reminderAcknowledged := false }

/-- One iteration of the `while self.recording` body of
`VideoRecorder._reminder_loop`, entered at clock reading `now` after the
30-second sleep (the loop only runs on states produced by `start`, which
sets `last_reminder_time`; the `getD 0` defaults are never reached
there). -/
def reminderTick (st : RecorderState) (now : ℤ) : RecorderState × List ReminderEvent :=
  if !st.recording then (st, [])
  else
    let elapsed := now - st.lastReminderTime.getD 0
    let interval := if st.reminderCount = 0 then firstInterval else followupInterval
    if elapsed ≥ interval then
      let st1 := firedState st now
      if st1.reminderCount ≥ maxReminders then
        ((VideoRecorder.stop st1).1, [ReminderEvent.autoStop])
      else
        (st1, [ReminderEvent.reminder st1.reminderCount (getDuration st1 now)])
    else (st, [])

/-- The reminder loop over a list of successive iteration clock readings
(the sleep schedule), accumulating the emitted events. -/
def reminderRun (st : RecorderState) : List ℤ → RecorderState × List ReminderEvent
  | [] => (st, [])
  | t :: ts =>
    let s := reminderTick st t
    let r := reminderRun s.1 ts
    (r.1, s.2 ++ r.2)

/-- How many `on_reminder` invocations a trace holds. -/
def countReminds (evs : List ReminderEvent) : ℕ :=
  evs.countP (fun e => match e with
    | ReminderEvent.reminder _ _ => true
    | _ => false)

/-- How many `on_auto_stop` invocations a trace holds. -/
def countAutoStops (evs : List ReminderEvent) : ℕ :=
  evs.countP (fun e => match e with
    | ReminderEvent.autoStop => true
    | _ => false)

theorem reminderRun_not_recording (ts : List ℤ) (st : RecorderState)
    (h : st.recording = false) : reminderRun st ts = (st, []) := by
  induction ts with
  | nil => rfl
  | cons t ts ih => simp [reminderRun, reminderTick, h, ih]

theorem reminderRun_counts (ts : List ℤ) : ∀ (st : RecorderState),
    st.recording = true → st.reminderCount < maxReminders →
    countReminds (reminderRun st ts).2 + st.reminderCount ≤ maxReminders - 1 ∧
    countAutoStops (reminderRun st ts).2 ≤ 1 := by
  induction ts with
  | nil =>
    intro st h hc
    simp only [reminderRun, countReminds, countAutoStops, List.countP_nil]
    omega
  | cons t ts ih =>
    intro st h hc
    by_cases hfire : t - st.lastReminderTime.getD 0 ≥
        (if st.reminderCount = 0 then firstInterval else followupInterval)
    · by_cases hmax : st.reminderCount + 1 ≥ maxReminders
      · have htick : reminderTick st t =
            ((VideoRecorder.stop (firedState st t)).1, [ReminderEvent.autoStop]) := by
          simp [reminderTick, firedState, h, hfire, hmax]
        have hstop : (VideoRecorder.stop (firedState st t)).1.recording = false := by
          simp [VideoRecorder.stop, firedState, h]
        simp only [reminderRun, htick]
        rw [reminderRun_not_recording ts _ hstop]
        refine ⟨?_, ?_⟩
        · simp only [maxReminders] at hc
          simp [countReminds, maxReminders]
          omega
        · simp [countAutoStops]
      · have hlt : st.reminderCount + 1 < maxReminders := by omega
        have htick : reminderTick st t =
            (firedState st t,
              [ReminderEvent.reminder (st.reminderCount + 1)
                (getDuration (firedState st t) t)]) := by
          simp [reminderTick, firedState, h, hfire, hmax]
        simp only [reminderRun, htick]
        obtain ⟨h1, h2⟩ := ih (firedState st t) h hlt
        have hfc : (firedState st t).reminderCount = st.reminderCount + 1 := rfl
        rw [hfc] at h1
        refine ⟨?_, ?_⟩
        · simp [countReminds, List.countP_append, maxReminders] at h1 ⊢
          omega
        · simp [countAutoStops, List.countP_append] at h2 ⊢
          omega
    · have htick : reminderTick st t = (st, []) := by
        simp [reminderTick, h, hfire]
      simp only [reminderRun, htick, List.nil_append]
      exact ih st h hc

/-- C3: in a never-acknowledged session the loop fires the first reminder
once the first interval (10 min) has elapsed since session start, fires a
subsequent reminder once the follow-up interval (30 min) has elapsed since
the previous one, and on the firing that brings `reminderCount` to
`maxReminders` (the 3rd) invokes the auto-stop callback and stops instead
of sending another reminder; over any tick schedule at most
`maxReminders - 1` reminder callbacks and at most one auto-stop happen, so
a 4th firing never occurs. -/
theorem C3_reminder_fsm :
    (∀ (st0 : RecorderState) (f : String) (t0 now : ℤ), st0.recording = false →
      (now - t0 < firstInterval →
        reminderTick (VideoRecorder.start st0 f t0).1 now =
          ((VideoRecorder.start st0 f t0).1, [])) ∧
      (now - t0 ≥ firstInterval →
        reminderTick (VideoRecorder.start st0 f t0).1 now =
          (firedState (VideoRecorder.start st0 f t0).1 now,
            [ReminderEvent.reminder 1
              (getDuration (firedState (VideoRecorder.start st0 f t0).1 now) now)]))) ∧
    (∀ (st : RecorderState) (t1 now : ℤ),
      st.recording = true → st.reminderCount = 1 → st.lastReminderTime = some t1 →
      (now - t1 < followupInterval → reminderTick st now = (st, [])) ∧
      (now - t1 ≥ followupInterval →
        reminderTick st now =
          (firedState st now,
            [ReminderEvent.reminder 2 (getDuration (firedState st now) now)]))) ∧
    (∀ (st : RecorderState) (t2 now : ℤ),
      st.recording = true → st.reminderCount = 2 → st.lastReminderTime = some t2 →
      now - t2 ≥ followupInterval →
      reminderTick st now = ((VideoRecorder.stop (firedState st now)).1,
        [ReminderEvent.autoStop]) ∧
      (reminderTick st now).1.recording = false) ∧
    (∀ (st0 : RecorderState) (f : String) (t0 : ℤ) (ts : List ℤ), st0.recording = false →
      countReminds (reminderRun (VideoRecorder.start st0 f t0).1 ts).2 ≤ maxReminders - 1 ∧
      countAutoStops (reminderRun (VideoRecorder.start st0 f t0).1 ts).2 ≤ 1) := by
  refine ⟨?_, ?_, ?_, ?_⟩
  · intro st0 f t0 now h0
    constructor
    · intro hlt
      simp [VideoRecorder.start, h0, reminderTick, not_le.mpr hlt]
    · intro hge
      simp only [ge_iff_le] at hge
      simp [VideoRecorder.start, h0, reminderTick, firedState, getDuration, hge, maxReminders]
  · intro st t1 now h1 hcnt hlast
    constructor
    · intro hlt
      simp [reminderTick, h1, hcnt, hlast, not_le.mpr hlt]
    · intro hge
      simp only [ge_iff_le] at hge
      simp [reminderTick, firedState, h1, hcnt, hlast, hge, maxReminders]
  · intro st t2 now h1 hcnt hlast hge
    simp only [ge_iff_le] at hge
    constructor
    · simp [reminderTick, firedState, h1, hcnt, hlast, hge, maxReminders]
    · simp [reminderTick, firedState, VideoRecorder.stop, h1, hcnt, hlast, hge, maxReminders]
  · intro st0 f t0 ts h0
    have hrec : (VideoRecorder.start st0 f t0).1.recording = true := by
      simp [VideoRecorder.start, h0]
    have hcnt : (VideoRecorder.start st0 f t0).1.reminderCount = 0 := by
      simp [VideoRecorder.start, h0]
    have := reminderRun_counts ts (VideoRecorder.start st0 f t0).1 hrec
      (by rw [hcnt]; simp [maxReminders])
    rw [hcnt] at this
    omega

theorem C3_reminder_fsm_witness :
    reminderTick (VideoRecorder.start initRecorder "2025-01-01_00-00-00" 0).1 300 =
      ((VideoRecorder.start initRecorder "2025-01-01_00-00-00" 0).1, []) :=
  (C3_reminder_fsm.1 initRecorder "2025-01-01_00-00-00" 0 300 (by decide)).1 (by decide)

/-- C5: `stop` is idempotent: on an active session it finalizes, returns
the current file and clears the recording state; on an idle recorder it
returns nothing and changes nothing; after any `stop` the recorder is not
recording, so a second `stop` observes "not recording", returns nothing
and finalizes nothing. -/
theorem C5_stop_idempotent :
    ∀ (st : RecorderState),
      (st.recording = true →
        VideoRecorder.stop st =
          ({ st with recording := false, writerOpen := false, currentFile := none,
                     frameCount := 0, startTime := none }, st.currentFile)) ∧
      (st.recording = false → VideoRecorder.stop st = (st, none)) ∧
      (VideoRecorder.stop st).1.recording = false ∧
      VideoRecorder.stop (VideoRecorder.stop st).1 = ((VideoRecorder.stop st).1, none) := by
  intro st
  refine ⟨fun h => by simp [VideoRecorder.stop, h],
          fun h => by simp [VideoRecorder.stop, h], ?_, ?_⟩
  · by_cases h : st.recording <;> simp [VideoRecorder.stop, h]
  · by_cases h : st.recording <;> simp [VideoRecorder.stop, h]

theorem C5_stop_idempotent_witness :
    VideoRecorder.stop
        ⟨true, some "f.mp4", true, 7, some 0, false, some 0, 0⟩ =
      ({ recording := false, currentFile := none, writerOpen := false, frameCount := 0,
         startTime := none, reminderAcknowledged := false, lastReminderTime := some 0,
         reminderCount := 0 }, some "f.mp4") :=
  (C5_stop_idempotent ⟨true, some "f.mp4", true, 7, some 0, false, some 0, 0⟩).1 rfl

/-- C6: acknowledging resets `reminderCount` to 0 and `lastReminderAt` to
the acknowledgment time (a full reset), so the next reminder fires only a
full first interval after the acknowledgment time, independent of session
start and previous reminders. -/
theorem C6_acknowledge_reset :
    ∀ (st : RecorderState) (ta now : ℤ),
      (acknowledge_reminder st ta).reminderCount = 0 ∧
      (acknowledge_reminder st ta).lastReminderTime = some ta ∧
      (acknowledge_reminder st ta).reminderAcknowledged = true ∧
      (now - ta < firstInterval →
        reminderTick (acknowledge_reminder st ta) now = (acknowledge_reminder st ta, [])) ∧
      (st.recording = true → now - ta ≥ firstInterval →
        reminderTick (acknowledge_reminder st ta) now =
          (firedState (acknowledge_reminder st ta) now,
            [ReminderEvent.reminder 1
              (getDuration (firedState (acknowledge_reminder st ta) now) now)])) := by
  intro st ta now
  refine ⟨rfl, rfl, rfl, ?_, ?_⟩
  · intro hlt
    by_cases h : st.recording
    · simp [reminderTick, acknowledge_reminder, h, not_le.mpr hlt]
    · simp only [Bool.not_eq_true] at h
      simp [reminderTick, acknowledge_reminder, h]
  · intro h hge
    simp only [ge_iff_le] at hge
    simp [reminderTick, acknowledge_reminder, firedState, h, hge, maxReminders]

theorem C6_acknowledge_reset_witness :
    reminderTick (acknowledge_reminder
        ⟨true, some "f.mp4", true, 7, some 0, false, some 900, 2⟩ 1000) 1100 =
      (acknowledge_reminder
        ⟨true, some "f.mp4", true, 7, some 0, false, some 900, 2⟩ 1000, []) :=
  ((C6_acknowledge_reset
      ⟨true, some "f.mp4", true, 7, some 0, false, some 900, 2⟩ 1000 1100).2.2.2.1)
    (by decide)

/-! ## Telegram command router (`src/notifications/telegram_bot.py`,
wired as in `main.py`, where every callback is set) -/

/-- `SecuritySystem._on_record_start` (`main.py`): the record-start
command handler.  Returns nothing when a session is already active or no
frame size is known yet; otherwise delegates to `VideoRecorder.start`. -/
def onRecordStart (rec : RecorderState) (frameSize : Option (ℕ × ℕ))
    (timestamp : String) (now : ℤ) : RecorderState × Option String :=
  if rec.recording then (rec, none)
  else
    match frameSize with
    | some _ => VideoRecorder.start rec timestamp now
    | none => (rec, none)

/-- Python `s.split(maxsplit=1)` restricted to the space separator (the
inbound text was already stripped): the first whitespace-delimited token
and the remainder with its leading separators dropped. -/
def pySplitMax1 (s : String) : String × String :=
  let cs := s.data.dropWhile (fun c => c == ' ')
  (String.mk (cs.takeWhile (fun c => c != ' ')),
    String.mk ((cs.dropWhile (fun c => c != ' ')).dropWhile (fun c => c == ' ')))

/-- ASCII lowercasing of one character (`str.lower`; the command tokens in
play are ASCII). -/
def lowerChar (c : Char) : Char :=
  if 65 ≤ c.toNat ∧ c.toNat ≤ 90 then Char.ofNat (c.toNat + 32) else c

/-- `parts[0].lower().split("@")[0]` of `_handle_command`. -/
def cmdName (tok : String) : String :=
  String.mk ((tok.data.map lowerChar).takeWhile (fun c => c != '@'))

/-- `a.startswith(b)` as used on the inbound text and caption. -/
def strStarts (pre s : String) : Bool :=
  pre.data.isPrefixOf s.data

/-- Mutable state the update handler can touch: the bot's own fields
(`surveillance_active`, `pending_add_name`) and, through the callbacks
`main.py` wires, the system pause flag and the recorder (with the frame
size the recorder needs). -/
structure BotSysState where
  surveillanceActive : Bool
  pendingAddName : Option String
  paused : Bool
  recorder : RecorderState
  frameSize : Option (ℕ × ℕ)
deriving DecidableEq, Repr

/-- The environment of one `_handle_update` call: the configured
authorized chat id, the clock readings, and the results of the external
probes the handlers consult (directory listings, snapshot capture, the
Telegram file download).  `recordings` carries the display names of
`list_recordings` (the size column is presentation only). -/
structure BotEnv where
  authChat : String
  timestamp : String
  now : ℤ
  knownFaces : List String
  knownFacesDir : String
  removeFound : Bool
  statusExtra : String
  recordings : List String
  snapResult : Option String
  fetchOk : Bool
deriving DecidableEq, Repr

/-- One inbound update's message: the sender chat id, the stripped text
and caption, and whether a photo payload is attached. -/
structure TgMessage where
  chatId : String
  text : String
  caption : String
  hasPhoto : Bool
deriving DecidableEq, Repr

/-- The observable actions of the handlers: outbound messages and photo
replies, callback invocations into `SecuritySystem`, the reference-image
write of `_handle_add_photo`, and the file removal of `_remove_face`. -/
inductive BotEffect where
  | sendMessage (text : String)
  | sendPhotoMsg (caption : String) (path : String)
  | callbackRun (cb : String)
  | saveFace (name : String) (path : String)
  | removeFile (name : String)
deriving DecidableEq, Repr

/-- `TelegramBot._handle_add_photo` with the `main.py` wiring
(`on_add_face` set).  The pending name is read and cleared *before* the
download is attempted; `env.fetchOk` stands for `getFile` yielding a file
path (a failed download sends an error message and registers nothing). -/
def handleAddPhoto (st : BotSysState) (env : BotEnv) : BotSysState × List BotEffect :=
  let name := st.pendingAddName.getD "None"
  let st' := { st with pendingAddName := none }
  if !env.fetchOk then
    (st', [BotEffect.sendMessage "❌ Failed to download photo"])
  else
    let savePath := env.knownFacesDir ++ "/" ++ name ++ ".jpg"
    (st', [BotEffect.saveFace name savePath,
           BotEffect.sendMessage ("✅ Added '" ++ name ++ "' to known faces!"),
           BotEffect.callbackRun "on_add_face"])

/-- `TelegramBot._handle_command` with the `main.py` callbacks inlined
(`on_start`/`on_stop` flip the pause flag, `on_record_start` is
`onRecordStart`, `on_record_stop` is `VideoRecorder.stop`,
`on_record_continue` is `acknowledge_reminder`). -/
def handleCommand (st : BotSysState) (env : BotEnv) (text : String) :
    BotSysState × List BotEffect :=
  let parts := pySplitMax1 text
  let cmd := cmdName parts.1
  let arg := parts.2
  if cmd = "/start" then
    ({ st with surveillanceActive := true, paused := false },
      [BotEffect.callbackRun "on_start", BotEffect.sendMessage "✅ Surveillance STARTED"])
  else if cmd = "/stop" then
    ({ st with surveillanceActive := false, paused := true },
      [BotEffect.callbackRun "on_stop", BotEffect.sendMessage "⏹️ Surveillance STOPPED"])
  else if cmd = "/status" then
    (st, [BotEffect.callbackRun "get_status",
          BotEffect.sendMessage
            ((if st.surveillanceActive then "Status: 🟢 Active\n" else "Status: 🔴 Stopped\n") ++
              env.statusExtra)])
  else if cmd = "/list" then
    (st, [BotEffect.sendMessage
      (if env.knownFaces.isEmpty then "No known faces registered"
       else "👥 Known faces:\n" ++
         String.intercalate "\n" (env.knownFaces.map (fun f => "• " ++ f)))])
  else if cmd = "/add" then
    if arg = "" then
      (st, [BotEffect.sendMessage "Usage: /add <name>\nThen send a photo"])
    else
      ({ st with pendingAddName := some arg },
        [BotEffect.sendMessage ("📸 Send a photo to register '" ++ arg ++ "'")])
  else if cmd = "/remove" then
    if arg = "" then
      (st, [BotEffect.sendMessage "Usage: /remove <name>"])
    else if env.removeFound then
      (st, [BotEffect.removeFile arg,
            BotEffect.sendMessage ("✅ Removed '" ++ arg ++ "' from known faces")])
    else
      (st, [BotEffect.sendMessage ("❌ '" ++ arg ++ "' not found")])
  else if cmd = "/record" then
    let r := onRecordStart st.recorder st.frameSize env.timestamp env.now
    ({ st with recorder := r.1 },
      [BotEffect.callbackRun "on_record_start",
       BotEffect.sendMessage (match r.2 with
         | some f =>
           "🔴 Recording started\nFile: " ++ f ++
             "\n\n⏰ Reminder in 10 min. Reply /continue to keep recording."
         | none => "⚠️ Already recording")])
  else if cmd = "/stoprecord" then
    let r := VideoRecorder.stop st.recorder
    ({ st with recorder := r.1 },
      [BotEffect.callbackRun "on_record_stop",
       BotEffect.sendMessage (match r.2 with
         | some f => "⏹️ Recording stopped\nSaved: " ++ f
         | none => "⚠️ Not recording")])
  else if cmd = "/continue" then
    ({ st with recorder := acknowledge_reminder st.recorder env.now },
      [BotEffect.callbackRun "on_record_continue",
       BotEffect.sendMessage "✅ Recording will continue\nNext reminder in 10 min"])
  else if cmd = "/recordings" then
    (st, [BotEffect.callbackRun "get_recordings",
          BotEffect.sendMessage
            (if env.recordings.isEmpty then "No recordings found"
             else "📹 Recordings:\n" ++
               String.intercalate "\n" ((env.recordings.take 10).map (fun f => "• " ++ f)))])
  else if cmd = "/snap" then
    (st, BotEffect.callbackRun "on_snap" ::
      (match env.snapResult with
       | some p => [BotEffect.sendPhotoMsg "📸 Current frame" p]
       | none => [BotEffect.sendMessage "❌ No frame available"]))
  else if cmd = "/help" then
    (st, [BotEffect.sendMessage "🤖 Commands:\n\n📹 Surveillance:\n/start - Start surveillance\n/stop - Stop surveillance\n/status - Get status\n/snap - Get current frame\n\n👤 Faces:\n/list - List known faces\n/add <name> - Add face\n/remove <name> - Remove face\n\n🎬 Recording:\n/record - Start recording\n/stoprecord - Stop recording\n/continue - Keep recording\n/recordings - List recordings"])
  else
    (st, [BotEffect.sendMessage "Unknown command. Send /help"])

/-- `TelegramBot._handle_update` (the text and caption arrive already
stripped; the polling transport is out of scope).  Unauthorized senders
are dropped before anything else; then the inline photo-with-caption add,
the pending-name photo add, and text or caption commands, in the source's
order. -/
def handleUpdate (st : BotSysState) (env : BotEnv) (msg : TgMessage) :
    BotSysState × List BotEffect :=
  if msg.chatId ≠ env.authChat then (st, [])
  else
    let inlineName := (pySplitMax1 msg.caption).2
    if msg.hasPhoto ∧ strStarts "/add " msg.caption ∧ inlineName ≠ "" then
      handleAddPhoto { st with pendingAddName := some inlineName } env
    else if msg.hasPhoto ∧ st.pendingAddName.isSome then
      handleAddPhoto st env
    else if strStarts "/" msg.text then
      handleCommand st env msg.text
    else if strStarts "/" msg.caption then
      handleCommand st env msg.caption
    else (st, [])

/-- How many reference-image writes (registrations) a trace holds. -/
def countSaves (effs : List BotEffect) : ℕ :=
  effs.countP (fun e => match e with
    | BotEffect.saveFace _ _ => true
    | _ => false)

theorem strStarts_slash_of_add (s : String) (h : strStarts "/add " s = true) :
    strStarts "/" s = true := by
  have hadd : ("/add ").data = ['/', 'a', 'd', 'd', ' '] := rfl
  have hslash : ("/").data = ['/'] := rfl
  unfold strStarts at h ⊢
  rw [hadd] at h
  rw [hslash]
  cases hs : s.data with
  | nil => rw [hs] at h; simp [List.isPrefixOf] at h
  | cons c cs =>
    rw [hs] at h
    simp [List.isPrefixOf] at h ⊢
    exact h.1

/-- C7: a message whose sender differs from the authorized chat id
produces no callback, no response and no state change: the handler drops
it before anything runs. -/
theorem C7_unauthorized_silent :
    ∀ (st : BotSysState) (env : BotEnv) (msg : TgMessage),
      msg.chatId ≠ env.authChat → handleUpdate st env msg = (st, []) := by
  intro st env msg h
  simp [handleUpdate, h]

theorem C7_unauthorized_silent_witness :
    handleUpdate ⟨true, none, false, initRecorder, none⟩
        ⟨"1527878179", "ts", 0, [], "known_faces", true, "", [], none, true⟩
        ⟨"999", "/stop", "", false⟩ =
      (⟨true, none, false, initRecorder, none⟩, []) :=
  C7_unauthorized_silent _ _ _ (by decide)

/-- C8 as stated is false on the code: a photo from the authorized sender
with no pending name and no inline name in its caption is not always
ignored — when the caption carries another command (here "/stop") the
command is dispatched: the surveillance flag flips and a response is
sent. -/
theorem C8_counterexample :
    (handleUpdate ⟨true, none, false, initRecorder, none⟩
        ⟨"1527878179", "ts", 0, [], "known_faces", true, "", [], none, true⟩
        ⟨"1527878179", "", "/stop", true⟩).1.surveillanceActive = false ∧
    (handleUpdate ⟨true, none, false, initRecorder, none⟩
        ⟨"1527878179", "ts", 0, [], "known_faces", true, "", [], none, true⟩
        ⟨"1527878179", "", "/stop", true⟩).2 ≠ [] := by
  exact ⟨rfl, by decide⟩

/-- C8 amended: a naming command sets the single pending-name slot,
overwriting any previous value rather than queuing; a photo from the
authorized sender while a pending name exists (with no inline /add
caption, download succeeding) completes that registration exactly once
and clears the slot; and a payload with no pending slot is ignored
provided its caption and text carry no command at all — a command-bearing
caption is dispatched as that command, which is what refutes the claim as
written. -/
theorem C8_add_handshake :
    (∀ (st : BotSysState) (env : BotEnv) (text : String),
      cmdName (pySplitMax1 text).1 = "/add" → (pySplitMax1 text).2 ≠ "" →
      (handleCommand st env text).1.pendingAddName = some (pySplitMax1 text).2) ∧
    (∀ (st : BotSysState) (env : BotEnv) (msg : TgMessage) (n : String),
      msg.chatId = env.authChat → msg.hasPhoto = true →
      st.pendingAddName = some n →
      strStarts "/add " msg.caption = false →
      env.fetchOk = true →
      (handleUpdate st env msg).1.pendingAddName = none ∧
      countSaves (handleUpdate st env msg).2 = 1 ∧
      BotEffect.saveFace n (env.knownFacesDir ++ "/" ++ n ++ ".jpg") ∈
        (handleUpdate st env msg).2) ∧
    (∀ (st : BotSysState) (env : BotEnv) (msg : TgMessage),
      msg.chatId = env.authChat → msg.hasPhoto = true →
      st.pendingAddName = none →
      strStarts "/" msg.text = false → strStarts "/" msg.caption = false →
      handleUpdate st env msg = (st, [])) := by
  refine ⟨?_, ?_, ?_⟩
  · intro st env text hcmd harg
    simp only [handleCommand, hcmd]
    simp [harg]
  · intro st env msg n hchat hphoto hpend hnoinline hfetch
    have hroute : handleUpdate st env msg = handleAddPhoto st env := by
      simp [handleUpdate, hchat, hphoto, hnoinline, hpend]
    rw [hroute]
    simp [handleAddPhoto, hpend, hfetch, countSaves]
  · intro st env msg hchat hphoto hpend htext hcap
    have hnoadd : strStarts "/add " msg.caption = false := by
      cases hadd : strStarts "/add " msg.caption with
      | false => rfl
      | true => rw [strStarts_slash_of_add _ hadd] at hcap; exact Bool.noConfusion hcap
    simp [handleUpdate, hchat, hphoto, hpend, hnoadd, htext, hcap]

theorem C8_add_handshake_witness :
    (handleCommand ⟨true, some "Old", false, initRecorder, none⟩
        ⟨"1527878179", "ts", 0, [], "known_faces", true, "", [], none, true⟩
        "/add Alice").1.pendingAddName = some "Alice" :=
  C8_add_handshake.1 ⟨true, some "Old", false, initRecorder, none⟩
    ⟨"1527878179", "ts", 0, [], "known_faces", true, "", [], none, true⟩
    "/add Alice" (by decide) (by decide)

/-- C10: on a pending-name photo whose download fails, the registration
callback is not invoked but the pending slot is already cleared (it is
read and reset before the fetch), so re-handling the same photo (no
command in its caption) is a complete no-op: a fresh naming command is
needed first. -/
theorem C10_failed_download_clears_slot :
    ∀ (st : BotSysState) (env : BotEnv) (msg : TgMessage) (n : String),
      msg.chatId = env.authChat → msg.hasPhoto = true →
      st.pendingAddName = some n →
      strStarts "/" msg.caption = false → strStarts "/" msg.text = false →
      env.fetchOk = false →
      handleUpdate st env msg =
        ({ st with pendingAddName := none },
          [BotEffect.sendMessage "❌ Failed to download photo"]) ∧
      handleUpdate { st with pendingAddName := none } env msg =
        ({ st with pendingAddName := none }, []) := by
  intro st env msg n hchat hphoto hpend hcap htext hfetch
  have hnoadd : strStarts "/add " msg.caption = false := by
    cases hadd : strStarts "/add " msg.caption with
    | false => rfl
    | true => rw [strStarts_slash_of_add _ hadd] at hcap; exact Bool.noConfusion hcap
  constructor
  · have hroute : handleUpdate st env msg = handleAddPhoto st env := by
      simp [handleUpdate, hchat, hphoto, hnoadd, hpend]
    rw [hroute]
    simp [handleAddPhoto, hpend, hfetch]
  · simp [handleUpdate, hchat, hphoto, hnoadd, htext, hcap]

theorem C10_failed_download_clears_slot_witness :
    handleUpdate ⟨true, some "Alice", false, initRecorder, none⟩
        ⟨"1527878179", "ts", 0, [], "known_faces", true, "", [], none, false⟩
        ⟨"1527878179", "", "", true⟩ =
      ({ surveillanceActive := true, pendingAddName := none, paused := false,
         recorder := initRecorder, frameSize := none },
        [BotEffect.sendMessage "❌ Failed to download photo"]) :=
  (C10_failed_download_clears_slot ⟨true, some "Alice", false, initRecorder, none⟩
    ⟨"1527878179", "ts", 0, [], "known_faces", true, "", [], none, false⟩
    ⟨"1527878179", "", "", true⟩ "Alice"
    (by decide) (by decide) (by decide) (by decide) (by decide) (by decide)).1

/-- C4: the record-start command on an already-active session is a no-op
returning nothing, the /record command then replies "Already recording"
with the whole state untouched; on an idle recorder with a known frame
size it allocates a fresh session with a timestamped file, zero frame
count and fully reset reminder state. -/
theorem C4_record_start :
    (∀ (rec : RecorderState) (fs : Option (ℕ × ℕ)) (ts : String) (now : ℤ),
      rec.recording = true → onRecordStart rec fs ts now = (rec, none)) ∧
    (∀ (st : BotSysState) (env : BotEnv),
      st.recorder.recording = true →
      handleCommand st env "/record" =
        (st, [BotEffect.callbackRun "on_record_start",
              BotEffect.sendMessage "⚠️ Already recording"])) ∧
    (∀ (rec : RecorderState) (sz : ℕ × ℕ) (ts : String) (now : ℤ),
      rec.recording = false →
      onRecordStart rec (some sz) ts now =
        ({ recording := true, currentFile := some (ts ++ ".mp4"), writerOpen := true,
           frameCount := 0, startTime := some now, reminderAcknowledged := false,
           lastReminderTime := some now, reminderCount := 0 }, some (ts ++ ".mp4"))) := by
  refine ⟨?_, ?_, ?_⟩
  · intro rec fs ts now h
    simp [onRecordStart, h]
  · intro st env h
    have hcmd : cmdName (pySplitMax1 "/record").1 = "/record" := rfl
    simp [handleCommand, hcmd, onRecordStart, h]
  · intro rec sz ts now h
    simp [onRecordStart, VideoRecorder.start, h]

theorem C4_record_start_witness :
    onRecordStart ⟨true, some "f.mp4", true, 7, some 0, false, some 0, 0⟩
        (some (640, 480)) "ts" 5 =
      (⟨true, some "f.mp4", true, 7, some 0, false, some 0, 0⟩, none) :=
  C4_record_start.1 ⟨true, some "f.mp4", true, 7, some 0, false, some 0, 0⟩
    (some (640, 480)) "ts" 5 rfl

end HostelEye
